import Mathlib

/-!
Shallow embedding of the Conduit request router (src/conduit) and of the
spec-described engine modules whose implementations are exercised only by the
repository's unit tests.  Python floats are modelled as rationals (`ℚ`),
timestamps as `Nat`, and fallible constructors/operations as `Except`.
-/

set_option autoImplicit false

namespace Conduit

/-! ## Configuration (src/conduit/core/config.py) -/

/-- Field-level bound check on a single reward weight, transcribing the
pydantic `Field(ge=0.0, le=1.0)` constraints on `reward_weight_quality`,
`reward_weight_cost` and `reward_weight_latency`. -/
def reward_weight_in_range (v : ℚ) : Bool :=
  decide (0 ≤ v) && decide (v ≤ 1)

/-- Transcription of `Settings.validate_reward_weights_sum`: the validator
body performs no check and returns the value unchanged. -/
def validate_reward_weights_sum (v : ℚ) : ℚ := v

/-- Pydantic validation pipeline for one reward-weight field: the `Field`
bounds run first, then the (no-op) field validator transforms the value. -/
def accept_weight (v : ℚ) : Option ℚ :=
  if reward_weight_in_range v then some (validate_reward_weights_sum v) else none

/-- Whether a `Settings` instance with the given three reward weights passes
configuration validation (only the weight fields are modelled; the remaining
fields carry independent constraints). -/
def settings_accepts_weights (q c l : ℚ) : Bool :=
  (accept_weight q).isSome && (accept_weight c).isSome && (accept_weight l).isSome

/-! ## Core data models (src/conduit/core/models.py) -/

/-- Constraints for routing decisions (`QueryConstraints`). -/
structure QueryConstraints where
  max_cost : Option ℚ := none
  max_latency : Option ℚ := none
  min_quality : Option ℚ := none
  preferred_provider : Option String := none

/-- Python's `str.strip()`, modelled as dropping whitespace characters from
both ends of the character list. -/
def pystrip (s : String) : String :=
  ⟨((s.data.dropWhile Char.isWhitespace).reverse.dropWhile Char.isWhitespace).reverse⟩

/-- Transcription of the `Query.text_not_empty` field validator: reject text
that is empty after stripping, otherwise store the stripped text. -/
def text_not_empty (v : String) : Except String String :=
  if pystrip v = "" then Except.error "Query text cannot be empty"
  else Except.ok (pystrip v)

/-- Validation pipeline for `Query.text`: the `Field(min_length=1)` constraint
runs first, then the `text_not_empty` validator. -/
def mkQueryText (t : String) : Except String String :=
  if t.length < 1 then Except.error "String should have at least 1 character"
  else text_not_empty t

/-- User query to be routed to an LLM (`Query`), with `text` already
validated. -/
structure Query where
  id : String
  text : String
  user_id : Option String := none
  context : Option String := none
  constraints : Option QueryConstraints := none
  created_at : Nat := 0

/-- Extracted features from a query (`QueryFeatures`). -/
structure QueryFeatures where
  embedding : List ℚ
  token_count : Nat
  complexity_score : ℚ
  domain : String
  domain_confidence : ℚ

/-- ML-powered routing decision (`RoutingDecision`), with exactly the fields
declared in src/conduit/core/models.py lines 72-85. -/
structure RoutingDecision where
  id : String
  query_id : String
  selected_model : String
  confidence : ℚ
  features : QueryFeatures
  reasoning : String
  created_at : Nat := 0

/-- Names of the fields declared on `RoutingDecision` in
src/conduit/core/models.py (lines 72-85), in declaration order. -/
def RoutingDecisionFields : List String :=
  ["id", "query_id", "selected_model", "confidence", "features", "reasoning",
   "created_at"]

/-- LLM response to a query (`Response`). -/
structure Response where
  id : String
  query_id : String
  model : String
  text : String
  cost : ℚ
  latency : ℚ
  tokens : Nat
  created_at : Nat := 0

/-- User feedback on response quality (`Feedback`). -/
structure Feedback where
  id : String
  response_id : String
  quality_score : ℚ
  user_rating : Option Nat := none
  met_expectations : Bool
  comments : Option String := none
  created_at : Nat := 0

/-- Thompson-sampling state for a model (`ModelState`), with the pydantic
defaults `alpha = 1`, `beta = 1`, `total_requests = 0`. -/
structure ModelState where
  model_id : String
  alpha : ℚ := 1
  beta : ℚ := 1
  total_requests : Int := 0
  total_cost : ℚ := 0
  avg_quality : ℚ := 0
  updated_at : Nat := 0

/-- Pydantic construction of a `ModelState`, transcribing the field
constraints `alpha > 0`, `beta > 0`, `total_cost ≥ 0`,
`0 ≤ avg_quality ≤ 1`. -/
def mkModelState (model_id : String) (alpha beta : ℚ) (total_requests : Int)
    (total_cost avg_quality : ℚ) : Except String ModelState :=
  if 0 < alpha then
    if 0 < beta then
      if 0 ≤ total_cost then
        if 0 ≤ avg_quality ∧ avg_quality ≤ 1 then
          Except.ok { model_id := model_id, alpha := alpha, beta := beta,
                      total_requests := total_requests,
                      total_cost := total_cost, avg_quality := avg_quality }
        else Except.error "avg_quality out of range"
      else Except.error "total_cost must be nonnegative"
    else Except.error "beta must be greater than 0"
  else Except.error "alpha must be greater than 0"

/-- Freshly constructed state: all defaulted fields keep their pydantic
defaults. -/
def mkDefaultModelState (model_id : String) : ModelState :=
  { model_id := model_id }

/-- Transcription of the `ModelState.mean_success_rate` property. -/
def ModelState.mean_success_rate (s : ModelState) : ℚ :=
  s.alpha / (s.alpha + s.beta)

/-- Transcription of the `ModelState.variance` property
(`ab = alpha + beta`; value `alpha * beta / (ab * ab * (ab + 1))`). -/
def ModelState.variance (s : ModelState) : ℚ :=
  let ab := s.alpha + s.beta
  (s.alpha * s.beta) / (ab * ab * (ab + 1))

/-- Values stored in the `RoutingResult.metadata` dictionary. -/
inductive MetaValue where
  | ofRat (q : ℚ)
  | ofNat (n : Nat)
  | ofStr (s : String)
  deriving DecidableEq

/-- Complete routing result returned to the client (`RoutingResult`); `D` is
the type of the JSON-parsed structured response data. -/
structure RoutingResult (D : Type) where
  id : String
  query_id : String
  model : String
  data : D
  metadata : List (String × MetaValue)

/-- Transcription of `RoutingResult.from_response`; `parseJson` stands for
the external `json.loads`, returning `none` when the text does not parse. -/
def RoutingResult.from_response {D : Type} (parseJson : String → Option D)
    (response : Response) (routing : RoutingDecision) :
    Option (RoutingResult D) :=
  match parseJson response.text with
  | none => none
  | some d =>
    some { id := response.id
           query_id := response.query_id
           model := response.model
           data := d
           metadata :=
             [("cost", MetaValue.ofRat response.cost),
              ("latency", MetaValue.ofRat response.latency),
              ("tokens", MetaValue.ofNat response.tokens),
              ("routing_confidence", MetaValue.ofRat routing.confidence),
              ("reasoning", MetaValue.ofStr routing.reasoning)] }

/-! ## Database (src/conduit/core/database.py)

The connection pool is modelled as the table contents it gives access to;
`pool = none` is the state before `connect()` has run.  Each operation returns
the updated database, the trace of SQL statements actually executed (the
observable database I/O), and its result.  `ok` flags stand for the success of
the corresponding `asyncpg` statement, whose failure the source converts into
a `DatabaseError`. -/

/-- Error hierarchy member relevant to the database interface
(src/conduit/core/exceptions.py `DatabaseError`). -/
inductive ConduitError where
  | databaseError (message : String)
  deriving DecidableEq

/-- Contents of the persistence tables touched by `Database`. -/
structure Tables where
  queries : List Query := []
  routing_decisions : List RoutingDecision := []
  responses : List Response := []
  feedback_rows : List Feedback := []
  model_states : List ModelState := []

/-- PostgreSQL interface (`Database`): connection string plus the optional
pool created by `connect()`. -/
structure Database where
  connection_string : String
  pool : Option Tables := none

/-- Transcription of `Database.connect`: creates the connection pool (the
initial table contents are supplied by the environment). -/
def Database.connect (db : Database) (t : Tables) : Database :=
  { db with pool := some t }

/-- Transcription of `Database.save_query`: guard on the pool, then a single
auto-committed INSERT. -/
def Database.save_query (db : Database) (ok : Bool) (q : Query) :
    Database × List String × Except ConduitError String :=
  match db.pool with
  | none => (db, [], Except.error (ConduitError.databaseError "Database not connected"))
  | some t =>
    if ok then
      ({ db with pool := some { t with queries := t.queries ++ [q] } },
       ["INSERT INTO queries"], Except.ok q.id)
    else
      (db, ["INSERT INTO queries"],
       Except.error (ConduitError.databaseError "Failed to save query"))

/-- One INSERT inside a transaction body: on success the staged tables grow,
on failure the exception aborts the body. -/
def insert_routing_decision (ok : Bool) (routing : RoutingDecision)
    (t : Tables) : Except String Tables :=
  if ok then Except.ok { t with routing_decisions := t.routing_decisions ++ [routing] }
  else Except.error "INSERT INTO routing_decisions failed"

/-- Staged INSERT of a response inside the transaction body. -/
def insert_response (ok : Bool) (response : Response) (t : Tables) :
    Except String Tables :=
  if ok then Except.ok { t with responses := t.responses ++ [response] }
  else Except.error "INSERT INTO responses failed"

/-- Staged INSERT of a feedback row inside the transaction body. -/
def insert_feedback (ok : Bool) (fb : Feedback) (t : Tables) :
    Except String Tables :=
  if ok then Except.ok { t with feedback_rows := t.feedback_rows ++ [fb] }
  else Except.error "INSERT INTO feedback failed"

/-- Semantics of `async with conn.transaction()`: the body runs on staged
tables; commit on success, roll back to the original tables on any
failure. -/
def run_transaction (t : Tables) (body : Tables → Except String Tables) :
    Tables × Except String Unit :=
  match body t with
  | Except.ok t' => (t', Except.ok ())
  | Except.error e => (t, Except.error e)

/-- Transcription of `Database.save_complete_interaction`: guard on the pool,
then one transaction inserting the routing decision, the response, and the
feedback when provided; any exception is re-raised as `DatabaseError`. -/
def Database.save_complete_interaction (db : Database) (ok1 ok2 ok3 : Bool)
    (routing : RoutingDecision) (response : Response) (fb : Option Feedback) :
    Database × List String × Except ConduitError Unit :=
  match db.pool with
  | none => (db, [], Except.error (ConduitError.databaseError "Database not connected"))
  | some t =>
    let trace :=
      "INSERT INTO routing_decisions" ::
        (if ok1 then
          "INSERT INTO responses" ::
            (if ok2 && fb.isSome then ["INSERT INTO feedback"] else [])
        else [])
    let (t', result) := run_transaction t (fun t0 =>
      match insert_routing_decision ok1 routing t0 with
      | Except.error e => Except.error e
      | Except.ok t1 =>
        match insert_response ok2 response t1 with
        | Except.error e => Except.error e
        | Except.ok t2 =>
          match fb with
          | none => Except.ok t2
          | some f => insert_feedback ok3 f t2)
    match result with
    | Except.ok () => ({ db with pool := some t' }, trace, Except.ok ())
    | Except.error e =>
      ({ db with pool := some t' }, trace,
       Except.error (ConduitError.databaseError ("Failed to save interaction: " ++ e)))

/-- UPSERT used by `update_model_state` (`ON CONFLICT (model_id) DO
UPDATE`). -/
def upsert_model_state (xs : List ModelState) (s : ModelState) :
    List ModelState :=
  if xs.any (fun x => x.model_id == s.model_id) then
    xs.map (fun x => if x.model_id == s.model_id then s else x)
  else xs ++ [s]

/-- Transcription of `Database.update_model_state`: guard on the pool, then a
single auto-committed UPSERT. -/
def Database.update_model_state (db : Database) (ok : Bool) (s : ModelState) :
    Database × List String × Except ConduitError Unit :=
  match db.pool with
  | none => (db, [], Except.error (ConduitError.databaseError "Database not connected"))
  | some t =>
    if ok then
      ({ db with pool := some { t with model_states := upsert_model_state t.model_states s } },
       ["INSERT INTO model_states ON CONFLICT DO UPDATE"], Except.ok ())
    else
      (db, ["INSERT INTO model_states ON CONFLICT DO UPDATE"],
       Except.error (ConduitError.databaseError "Failed to update model state"))

/-- Transcription of `Database.get_model_states`: guard on the pool, then a
single read-only SELECT. -/
def Database.get_model_states (db : Database) :
    Database × List String × Except ConduitError (List ModelState) :=
  match db.pool with
  | none => (db, [], Except.error (ConduitError.databaseError "Database not connected"))
  | some t => (db, ["SELECT FROM model_states"], Except.ok t.model_states)

/-- Transcription of `Database.get_response_by_id`: guard on the pool, then a
single SELECT by id, returning `none` when no row matches. -/
def Database.get_response_by_id (db : Database) (rid : String) :
    Database × List String × Except ConduitError (Option Response) :=
  match db.pool with
  | none => (db, [], Except.error (ConduitError.databaseError "Database not connected"))
  | some t =>
    (db, ["SELECT FROM responses"],
     Except.ok (t.responses.find? (fun r => r.id == rid)))

/-! ## Executor (spec §4.F and tests/unit/test_fallback.py)

The module `conduit/engines/executor.py` is not part of the sources; its
behaviour is modelled from the spec. -/

/-- Outcome of one external LLM call for a given arm (the spec's black-box
call interface: success with a response, or a classified error). -/
inductive ExecOutcome where
  | success (r : Response)
  | failure (err : String)

/-- Error message of a failed call (empty for a success). -/
def failure_message : ExecOutcome → String
  | ExecOutcome.success _ => ""
  | ExecOutcome.failure e => e

/-- Modelled from the spec: `ExecutionResult{response, model_used,
was_fallback, original_model, failed_models[]}` returned by
`execute_with_fallback` (the `executor` module is missing from src). -/
structure ExecutionResult where
  response : Response
  model_used : String
  was_fallback : Bool := false
  original_model : String := ""
  failed_models : List String := []

/-- Modelled from the spec: the routing decision as consumed by the executor,
carrying `selected_model` and an ordered `fallback_chain` (defaulting to the
empty list). -/
structure FallbackDecision where
  selected_model : String
  fallback_chain : List String := []

/-- Modelled from the spec: try each arm in order; the first success yields an
`ExecutionResult` recording the previously failed arms, and exhaustion yields
the ordered list of per-arm errors (`AllModelsFailed`). -/
def try_models (call : String → ExecOutcome) (original : String) :
    List String → Except (List (String × String)) ExecutionResult
  | [] => Except.error []
  | m :: rest =>
    match call m with
    | ExecOutcome.success r =>
      Except.ok { response := r, model_used := m, original_model := original }
    | ExecOutcome.failure e =>
      match try_models call original rest with
      | Except.ok res =>
        Except.ok { res with was_fallback := true,
                             failed_models := m :: res.failed_models }
      | Except.error errs => Except.error ((m, e) :: errs)

/-- Modelled from the spec: `execute_with_fallback(decision, …,
max_fallbacks)` tries the primary model and then at most `max_fallbacks` arms
of the fallback chain, in order. -/
def execute_with_fallback (call : String → ExecOutcome)
    (decision : FallbackDecision) (max_fallbacks : Nat) :
    Except (List (String × String)) ExecutionResult :=
  try_models call decision.selected_model
    (decision.selected_model :: decision.fallback_chain.take max_fallbacks)

/-! ## Feedback attribution (spec §4.H and tests/unit/test_fallback.py)

The module `conduit/engines/router.py` is not part of the sources; the
attribution rule is modelled from the spec. -/

/-- One call to `Router.update(model_id, cost, quality_score, latency,
features)`. -/
structure UpdateCall where
  model_id : String
  cost : ℚ
  quality_score : ℚ
  latency : ℚ
  deriving DecidableEq

/-- Modelled from the spec: `Router.update_with_fallback_attribution` (the
`router` module is missing from src).  When `was_fallback`, each failed model
receives `quality_score = 0, cost = 0, latency = timeout_per_call` in the
order it failed, then `model_used` receives the real observed feedback;
otherwise only `model_used` is updated.  Returns the ordered list of issued
arm updates. -/
def update_with_fallback_attribution (execution_result : ExecutionResult)
    (quality_score : ℚ) (timeout_per_call : ℚ) : List UpdateCall :=
  let real : UpdateCall :=
    { model_id := execution_result.model_used
      cost := execution_result.response.cost
      quality_score := quality_score
      latency := execution_result.response.latency }
  if execution_result.was_fallback then
    (execution_result.failed_models.map (fun m =>
      { model_id := m, cost := 0, quality_score := 0,
        latency := timeout_per_call })) ++ [real]
  else [real]

/-! ## State store with optimistic locking (spec §4.G and
tests/unit/test_optimistic_locking.py)

The module `conduit/core/postgres_state_store.py` is not part of the sources;
the write protocol is modelled from the spec.  `read a` is the version read at
attempt `a` (`none` when the row is absent) and `cas_ok a` tells whether the
conditional INSERT/UPDATE of attempt `a` affected a row; sleeping between
attempts is invisible to the store's state. -/

/-- Retry bound of the optimistic-lock write protocol (reference constant). -/
def MAX_RETRIES : Nat := 5

/-- Base backoff delay in milliseconds (reference constant). -/
def BASE_DELAY_MS : Nat := 50

/-- Backoff delay cap in milliseconds (reference constant). -/
def MAX_DELAY_MS : Nat := 500

/-- Error raised when the optimistic lock gives up
(`StateVersionConflictError`, reporting the number of retries). -/
inductive StateStoreError where
  | versionConflict (retries : Nat)
  deriving DecidableEq

/-- Version written by one attempt: INSERT at version 1 when the row is
absent, UPDATE to `v + 1` when the row is at version `v`. -/
def next_version : Option Nat → Nat
  | none => 1
  | some v => v + 1

/-- Modelled from the spec: the compare-and-swap retry loop of
`save_bandit_state`.  `fuel` is the number of attempts still allowed
(initially `MAX_RETRIES + 1`); every conflict increments the conflict
counter, and exhaustion raises `StateVersionConflict`. -/
def save_state_go (read : Nat → Option Nat) (cas_ok : Nat → Bool) :
    Nat → Nat → Nat → Nat × Except StateStoreError Nat
  | 0, _, conflicts =>
    (conflicts, Except.error (StateStoreError.versionConflict MAX_RETRIES))
  | fuel + 1, attempt, conflicts =>
    if cas_ok attempt then (conflicts, Except.ok (next_version (read attempt)))
    else save_state_go read cas_ok fuel (attempt + 1) (conflicts + 1)

/-- The optimistic-locking state store's process-wide metrics
(`PostgresStateStore.conflict_count`). -/
structure PostgresStateStore where
  conflict_count : Nat := 0

/-- Modelled from the spec: `PostgresStateStore.save_bandit_state`, returning
the store with its updated conflict counter and either the newly stored
version or the exhaustion error. -/
def save_bandit_state (store : PostgresStateStore)
    (read : Nat → Option Nat) (cas_ok : Nat → Bool) :
    PostgresStateStore × Except StateStoreError Nat :=
  let out := save_state_go read cas_ok (MAX_RETRIES + 1) 0 store.conflict_count
  ({ conflict_count := out.1 }, out.2)

/-! ## Sample records used by evaluation witnesses -/

/-- Concrete query features used in witnesses. -/
def sampleFeatures : QueryFeatures :=
  { embedding := List.replicate 384 0, token_count := 50,
    complexity_score := 1/2, domain := "general", domain_confidence := 4/5 }

/-- Concrete routing decision used in witnesses. -/
def sampleDecision : RoutingDecision :=
  { id := "d1", query_id := "q1", selected_model := "gpt-4o",
    confidence := 9/10, features := sampleFeatures, reasoning := "test" }

/-- Concrete response used in witnesses. -/
def sampleResponse : Response :=
  { id := "r1", query_id := "q1", model := "claude-3-haiku", text := "ok",
    cost := 1/100, latency := 1/2, tokens := 100 }

/-- Concrete execution result (one failed arm, then success) used in
witnesses. -/
def sampleExecutionResult : ExecutionResult :=
  { response := sampleResponse, model_used := "gpt-4o-mini",
    was_fallback := true, original_model := "gpt-4o",
    failed_models := ["gpt-4o"] }

/-- Concrete external-call behaviour used in witnesses: only
`claude-3-haiku` answers. -/
def sampleCall : String → ExecOutcome := fun m =>
  if m == "claude-3-haiku" then ExecOutcome.success sampleResponse
  else ExecOutcome.failure "rate limited"

/-! ## Theorems -/

/-- The per-field validation pipeline accepts a weight exactly when it passes
the range check. -/
theorem accept_weight_isSome (v : ℚ) :
    (accept_weight v).isSome = reward_weight_in_range v := by
  unfold accept_weight
  split <;> simp_all

/-- Claim C1 (counterexample): configuration validation accepts the reward
weights `(1, 1, 1)` even though their sum differs from 1 by far more than the
claimed `1e-9` tolerance. -/
theorem reward_weights_sum_not_validated :
    settings_accepts_weights 1 1 1 = true ∧
    (1 + 1 + 1 : ℚ) - 1 > 1 / 1000000000 := by
  constructor
  · decide
  · norm_num

/-- Claim C1 (amended): configuration validation accepts a reward-weight
triple exactly when each of the three weights lies in `[0, 1]`; the sum of the
weights is not constrained (`validate_reward_weights_sum` checks nothing). -/
theorem reward_weights_validation_range_only (q c l : ℚ) :
    settings_accepts_weights q c l = true ↔
      (0 ≤ q ∧ q ≤ 1) ∧ (0 ≤ c ∧ c ≤ 1) ∧ (0 ≤ l ∧ l ≤ 1) := by
  simp only [settings_accepts_weights, accept_weight_isSome,
    reward_weight_in_range, Bool.and_eq_true, decide_eq_true_eq]
  tauto

/-- Witness for C1's amended claim: the default weights 0.5/0.3/0.2 are
accepted. -/
theorem reward_weights_validation_range_only_witness :
    settings_accepts_weights (1/2) (3/10) (1/5) = true :=
  (reward_weights_validation_range_only (1/2) (3/10) (1/5)).mpr (by norm_num)

/-- Claim C2 (code bug): the `RoutingDecision` model declared in
src/conduit/core/models.py has no `fallback_chain` field at all (while the
repository's own tests construct decisions with one and read it back), so a
decision cannot carry an ordered fallback chain. -/
theorem routing_decision_lacks_fallback_chain :
    RoutingDecisionFields.contains "fallback_chain" = false ∧
    RoutingDecisionFields.contains "selected_model" = true := by
  decide

/-- Claim C3: when `was_fallback`, `update_with_fallback_attribution` issues
exactly `k + 1` arm updates for `k` failed models — the `i`-th update
penalizes the `i`-th failed model with `quality_score = 0` and `cost = 0`, and
the `(k+1)`-st update gives `model_used` the real observed feedback; when
`was_fallback` is false, exactly the one real update is issued. -/
theorem update_with_fallback_attribution_spec (res : ExecutionResult)
    (q t : ℚ) :
    (res.was_fallback = true →
       (update_with_fallback_attribution res q t).length =
         res.failed_models.length + 1 ∧
       (∀ (i : Nat) (m : String), res.failed_models[i]? = some m →
          (update_with_fallback_attribution res q t)[i]? =
            some ({ model_id := m, cost := 0, quality_score := 0,
                    latency := t } : UpdateCall)) ∧
       (update_with_fallback_attribution res q t)[res.failed_models.length]? =
         some { model_id := res.model_used, cost := res.response.cost,
                quality_score := q, latency := res.response.latency }) ∧
    (res.was_fallback = false →
       update_with_fallback_attribution res q t =
         [{ model_id := res.model_used, cost := res.response.cost,
            quality_score := q, latency := res.response.latency }]) := by
  constructor
  · intro hf
    refine ⟨?_, ?_, ?_⟩
    · simp [update_with_fallback_attribution, hf]
    · intro i m him
      have hi : i < res.failed_models.length := by
        by_contra hcon
        push_neg at hcon
        rw [List.getElem?_eq_none hcon] at him
        cases him
      simp only [update_with_fallback_attribution, hf, if_true]
      rw [List.getElem?_append, if_pos (by simpa using hi), List.getElem?_map,
          him]
      rfl
    · simp only [update_with_fallback_attribution, hf, if_true]
      have h := List.getElem?_concat_length
        (res.failed_models.map (fun m =>
          ({ model_id := m, cost := 0, quality_score := 0,
             latency := t } : UpdateCall)))
        { model_id := res.model_used, cost := res.response.cost,
          quality_score := q, latency := res.response.latency }
      simp only [List.length_map] at h
      exact h
  · intro hf
    simp [update_with_fallback_attribution, hf]

/-- Witness for C3: in the concrete one-failure scenario the penalized arm and
the successful arm each receive their update. -/
theorem update_with_fallback_attribution_spec_witness :
    (update_with_fallback_attribution sampleExecutionResult (19/20) 30).length =
      sampleExecutionResult.failed_models.length + 1 ∧
    (∀ (i : Nat) (m : String), sampleExecutionResult.failed_models[i]? = some m →
       (update_with_fallback_attribution sampleExecutionResult (19/20) 30)[i]? =
         some ({ model_id := m, cost := 0, quality_score := 0,
                 latency := 30 } : UpdateCall)) ∧
    (update_with_fallback_attribution sampleExecutionResult
        (19/20) 30)[sampleExecutionResult.failed_models.length]? =
      some { model_id := sampleExecutionResult.model_used,
             cost := sampleExecutionResult.response.cost,
             quality_score := 19/20,
             latency := sampleExecutionResult.response.latency } :=
  (update_with_fallback_attribution_spec sampleExecutionResult (19/20) 30).1 rfl

/-- Complete characterization of the executor's retry chain over an arbitrary
ordered list of arms: either some arm succeeds after a (possibly empty) run of
failures recorded in order, or every arm fails and the ordered per-arm errors
are returned. -/
theorem try_models_spec (call : String → ExecOutcome) (original : String)
    (ms : List String) :
    (∃ pre m post r, ms = pre ++ m :: post ∧
       (∀ x ∈ pre, ∃ e, call x = ExecOutcome.failure e) ∧
       call m = ExecOutcome.success r ∧
       try_models call original ms =
         Except.ok { response := r, model_used := m,
                     was_fallback := !pre.isEmpty,
                     original_model := original, failed_models := pre }) ∨
    ((∀ x ∈ ms, ∃ e, call x = ExecOutcome.failure e) ∧
       try_models call original ms =
         Except.error (ms.map (fun m => (m, failure_message (call m))))) := by
  induction ms with
  | nil =>
    right
    exact ⟨by simp, rfl⟩
  | cons m rest ih =>
    cases hc : call m with
    | success r =>
      left
      refine ⟨[], m, rest, r, rfl, by simp, hc, ?_⟩
      simp [try_models, hc]
    | failure e =>
      rcases ih with ⟨pre, m', post, r, hsplit, hpre, hsucc, heq⟩ | ⟨hall, heq⟩
      · left
        refine ⟨m :: pre, m', post, r, by rw [hsplit]; rfl, ?_, hsucc, ?_⟩
        · intro x hx
          rcases List.mem_cons.mp hx with rfl | hx'
          · exact ⟨e, hc⟩
          · exact hpre x hx'
        · simp [try_models, hc, heq]
      · right
        refine ⟨?_, ?_⟩
        · intro x hx
          rcases List.mem_cons.mp hx with rfl | hx'
          · exact ⟨e, hc⟩
          · exact hall x hx'
        · simp [try_models, hc, heq, failure_message]

/-- Claim C4: `execute_with_fallback` attempts the primary model and then at
most `max_fallbacks` fallback arms in order; on the first success it returns
an `ExecutionResult` whose `failed_models` are exactly the previously failed
arms in attempt order, with `was_fallback` set exactly when some arm failed;
if every attempted arm fails it fails with the ordered list of per-arm
errors, one per attempted arm. -/
theorem execute_with_fallback_spec (call : String → ExecOutcome)
    (d : FallbackDecision) (k : Nat) :
    (d.selected_model :: d.fallback_chain.take k).length ≤ 1 + k ∧
    ((∃ pre m post r,
        d.selected_model :: d.fallback_chain.take k = pre ++ m :: post ∧
        (∀ x ∈ pre, ∃ e, call x = ExecOutcome.failure e) ∧
        call m = ExecOutcome.success r ∧
        execute_with_fallback call d k =
          Except.ok { response := r, model_used := m,
                      was_fallback := !pre.isEmpty,
                      original_model := d.selected_model,
                      failed_models := pre }) ∨
     ((∀ x ∈ d.selected_model :: d.fallback_chain.take k,
         ∃ e, call x = ExecOutcome.failure e) ∧
        execute_with_fallback call d k =
          Except.error ((d.selected_model :: d.fallback_chain.take k).map
            (fun m => (m, failure_message (call m)))))) := by
  constructor
  · have := List.length_take_le k d.fallback_chain
    simp only [List.length_cons]
    omega
  · exact try_models_spec call d.selected_model
      (d.selected_model :: d.fallback_chain.take k)

/-- Witness for C4: the concrete scenario of spec §8 S2 — the primary and the
first fallback fail, the second fallback answers. -/
theorem execute_with_fallback_spec_witness :
    (("gpt-4o" : String) ::
        (["gpt-4o-mini", "claude-3-haiku", "gemini-flash"].take 3)).length ≤
      1 + 3 ∧
    ((∃ pre m post r,
        ("gpt-4o" : String) ::
            (["gpt-4o-mini", "claude-3-haiku", "gemini-flash"].take 3) =
          pre ++ m :: post ∧
        (∀ x ∈ pre, ∃ e, sampleCall x = ExecOutcome.failure e) ∧
        sampleCall m = ExecOutcome.success r ∧
        execute_with_fallback sampleCall
            { selected_model := "gpt-4o",
              fallback_chain := ["gpt-4o-mini", "claude-3-haiku",
                                 "gemini-flash"] } 3 =
          Except.ok { response := r, model_used := m,
                      was_fallback := !pre.isEmpty,
                      original_model := "gpt-4o", failed_models := pre }) ∨
     ((∀ x ∈ ("gpt-4o" : String) ::
           (["gpt-4o-mini", "claude-3-haiku", "gemini-flash"].take 3),
         ∃ e, sampleCall x = ExecOutcome.failure e) ∧
        execute_with_fallback sampleCall
            { selected_model := "gpt-4o",
              fallback_chain := ["gpt-4o-mini", "claude-3-haiku",
                                 "gemini-flash"] } 3 =
          Except.error ((("gpt-4o" : String) ::
              (["gpt-4o-mini", "claude-3-haiku", "gemini-flash"].take 3)).map
            (fun m => (m, failure_message (sampleCall m)))))) :=
  execute_with_fallback_spec sampleCall
    { selected_model := "gpt-4o",
      fallback_chain := ["gpt-4o-mini", "claude-3-haiku", "gemini-flash"] } 3

/-- Every successful run of the optimistic-lock retry loop returns the version
written by the first succeeding attempt. -/
theorem save_state_go_ok (read : Nat → Option Nat) (cas_ok : Nat → Bool) :
    ∀ fuel attempt conflicts v',
      (save_state_go read cas_ok fuel attempt conflicts).2 = Except.ok v' →
      ∃ a, attempt ≤ a ∧ a < attempt + fuel ∧ cas_ok a = true ∧
        v' = next_version (read a) := by
  intro fuel
  induction fuel with
  | zero =>
    intro attempt conflicts v' h
    simp [save_state_go] at h
  | succ n ih =>
    intro attempt conflicts v' h
    by_cases hc : cas_ok attempt
    · simp only [save_state_go, hc, if_true] at h
      refine ⟨attempt, le_refl attempt, by omega, hc, ?_⟩
      injection h with h'
      exact h'.symm
    · simp only [save_state_go, hc, if_false] at h
      obtain ⟨a, ha1, ha2, ha3, ha4⟩ := ih (attempt + 1) (conflicts + 1) v' h
      exact ⟨a, by omega, by omega, ha3, ha4⟩

/-- When every allowed attempt conflicts, the retry loop exhausts its fuel,
adds one conflict per attempt, and raises the version-conflict error. -/
theorem save_state_go_all_fail (read : Nat → Option Nat)
    (cas_ok : Nat → Bool) :
    ∀ fuel attempt conflicts,
      (∀ a, attempt ≤ a → a < attempt + fuel → cas_ok a = false) →
      save_state_go read cas_ok fuel attempt conflicts =
        (conflicts + fuel,
         Except.error (StateStoreError.versionConflict MAX_RETRIES)) := by
  intro fuel
  induction fuel with
  | zero =>
    intro attempt conflicts _
    simp [save_state_go]
  | succ n ih =>
    intro attempt conflicts hall
    have hc : cas_ok attempt = false := hall attempt (le_refl attempt) (by omega)
    simp only [save_state_go, hc, if_false]
    rw [ih (attempt + 1) (conflicts + 1) (fun a h1 h2 => hall a (by omega) (by omega))]
    have harith : conflicts + 1 + n = conflicts + (n + 1) := by omega
    rw [harith]
    simp

/-- Claim C5: every successful `save_bandit_state` stores version exactly
`previous_version + 1` (version 1 when no row existed at the successful
attempt), and when all `MAX_RETRIES + 1` attempts conflict the call raises
`StateVersionConflict` after incrementing the conflict counter by
`MAX_RETRIES + 1`. -/
theorem save_bandit_state_spec (store : PostgresStateStore)
    (read : Nat → Option Nat) (cas_ok : Nat → Bool) :
    (∀ v', (save_bandit_state store read cas_ok).2 = Except.ok v' →
       ∃ a, a ≤ MAX_RETRIES ∧ cas_ok a = true ∧
         ((read a = none ∧ v' = 1) ∨
          (∃ p, read a = some p ∧ v' = p + 1))) ∧
    ((∀ a, a ≤ MAX_RETRIES → cas_ok a = false) →
       save_bandit_state store read cas_ok =
         ({ conflict_count := store.conflict_count + (MAX_RETRIES + 1) },
          Except.error (StateStoreError.versionConflict MAX_RETRIES))) := by
  constructor
  · intro v' h
    have h' : (save_state_go read cas_ok (MAX_RETRIES + 1) 0
        store.conflict_count).2 = Except.ok v' := h
    obtain ⟨a, _, ha2, ha3, ha4⟩ :=
      save_state_go_ok read cas_ok (MAX_RETRIES + 1) 0 store.conflict_count v' h'
    refine ⟨a, by omega, ha3, ?_⟩
    cases hr : read a with
    | none =>
      left
      rw [hr] at ha4
      exact ⟨rfl, ha4⟩
    | some p =>
      right
      rw [hr] at ha4
      exact ⟨p, rfl, ha4⟩
  · intro hall
    have := save_state_go_all_fail read cas_ok (MAX_RETRIES + 1) 0
      store.conflict_count (fun a _ h2 => hall a (by omega))
    simp only [save_bandit_state, this]

/-- Witness for C5: with every attempt conflicting, the concrete call raises
the version-conflict error with the counter raised from 0 to 6. -/
theorem save_bandit_state_spec_witness :
    save_bandit_state { conflict_count := 0 } (fun _ => some 5)
        (fun _ => false) =
      ({ conflict_count := 0 + (MAX_RETRIES + 1) },
       Except.error (StateStoreError.versionConflict MAX_RETRIES)) :=
  (save_bandit_state_spec { conflict_count := 0 } (fun _ => some 5)
    (fun _ => false)).2 (fun _ _ => rfl)

/-- Claim C6: `save_complete_interaction` writes the decision, the response
and the optional feedback in one transaction — if any of the three inserts
fails, the stored tables are unchanged and the call raises `DatabaseError`;
if all succeed, all provided records are persisted together. -/
theorem save_complete_interaction_atomic (cs : String) (t : Tables)
    (ok1 ok2 ok3 : Bool) (routing : RoutingDecision) (response : Response)
    (fb : Option Feedback) :
    ((ok1 = false ∨ ok2 = false ∨ (fb.isSome = true ∧ ok3 = false)) →
       (Database.save_complete_interaction ⟨cs, some t⟩ ok1 ok2 ok3 routing
           response fb).1 = ⟨cs, some t⟩ ∧
       ∃ m, (Database.save_complete_interaction ⟨cs, some t⟩ ok1 ok2 ok3
           routing response fb).2.2 =
         Except.error (ConduitError.databaseError m)) ∧
    (ok1 = true → ok2 = true → (fb.isSome = true → ok3 = true) →
       (Database.save_complete_interaction ⟨cs, some t⟩ ok1 ok2 ok3 routing
           response fb).2.2 = Except.ok () ∧
       (Database.save_complete_interaction ⟨cs, some t⟩ ok1 ok2 ok3 routing
           response fb).1.pool =
         some { t with
                routing_decisions := t.routing_decisions ++ [routing],
                responses := t.responses ++ [response],
                feedback_rows := t.feedback_rows ++ fb.toList }) := by
  cases ok1 <;> cases ok2 <;> cases fb <;> cases ok3 <;>
    simp [Database.save_complete_interaction, run_transaction,
          insert_routing_decision, insert_response, insert_feedback,
          Except.bind, Option.toList]

/-- Witness for C6: a failing response insert rolls the whole interaction
back and surfaces `DatabaseError`. -/
theorem save_complete_interaction_atomic_witness :
    (Database.save_complete_interaction ⟨"postgres", some {}⟩ true false true
        sampleDecision sampleResponse none).1 = ⟨"postgres", some {}⟩ ∧
    ∃ m, (Database.save_complete_interaction ⟨"postgres", some {}⟩ true false
        true sampleDecision sampleResponse none).2.2 =
      Except.error (ConduitError.databaseError m) :=
  (save_complete_interaction_atomic "postgres" {} true false true
    sampleDecision sampleResponse none).1 (Or.inr (Or.inl rfl))

/-- Claim C7: `ModelState` construction enforces `alpha > 0` and `beta > 0`
(rejecting non-positive parameters), a freshly constructed state carries the
uniform prior `alpha = beta = 1` with `total_requests = 0`, and the derived
statistics equal the Beta moments. -/
theorem model_state_spec (mid : String) (a b : ℚ) (tr : Int) (tc aq : ℚ) :
    (∀ s, mkModelState mid a b tr tc aq = Except.ok s →
       0 < s.alpha ∧ 0 < s.beta) ∧
    ((a ≤ 0 ∨ b ≤ 0) → ∃ e, mkModelState mid a b tr tc aq = Except.error e) ∧
    ((mkDefaultModelState mid).alpha = 1 ∧ (mkDefaultModelState mid).beta = 1 ∧
       (mkDefaultModelState mid).total_requests = 0) ∧
    (∀ s : ModelState,
       s.mean_success_rate = s.alpha / (s.alpha + s.beta) ∧
       s.variance = s.alpha * s.beta /
         ((s.alpha + s.beta) ^ 2 * (s.alpha + s.beta + 1))) := by
  refine ⟨?_, ?_, ⟨rfl, rfl, rfl⟩, ?_⟩
  · intro s h
    unfold mkModelState at h
    split_ifs at h with h1 h2 h3 h4
    · injection h with h'
      subst h'
      exact ⟨h1, h2⟩
  · intro hab
    unfold mkModelState
    split_ifs with h1 h2 h3 h4
    · exfalso
      rcases hab with h | h
      · linarith
      · linarith
    all_goals exact ⟨_, rfl⟩
  · intro s
    refine ⟨rfl, ?_⟩
    show s.alpha * s.beta /
        ((s.alpha + s.beta) * (s.alpha + s.beta) * (s.alpha + s.beta + 1)) = _
    ring_nf

/-- Witness for C7: a negative `alpha` is rejected. -/
theorem model_state_spec_witness :
    ∃ e, mkModelState "gpt-4o" (-1) 1 0 0 0 = Except.error e :=
  (model_state_spec "gpt-4o" (-1) 1 0 0 0).2.1 (Or.inl (by norm_num))

/-- Claim C8: constructing a `Query` fails validation exactly when the text is
empty or whitespace-only after stripping, and every accepted query stores the
stripped (hence non-empty) text. -/
theorem query_text_validation_spec (t : String) :
    ((∃ e, mkQueryText t = Except.error e) ↔ pystrip t = "") ∧
    (∀ s, mkQueryText t = Except.ok s → s = pystrip t ∧ s ≠ "") := by
  have hlen : t.length < 1 → pystrip t = "" := by
    intro h
    have ht : t = "" := by
      cases t with
      | mk data =>
        cases data with
        | nil => rfl
        | cons c cs => simp [String.length] at h
    rw [ht]
    rfl
  unfold mkQueryText text_not_empty
  by_cases h1 : t.length < 1
  · have h2 := hlen h1
    rw [if_pos h1]
    exact ⟨⟨fun _ => h2, fun _ => ⟨_, rfl⟩⟩, fun s hs => by cases hs⟩
  · rw [if_neg h1]
    by_cases h2 : pystrip t = ""
    · rw [if_pos h2]
      exact ⟨⟨fun _ => h2, fun _ => ⟨_, rfl⟩⟩, fun s hs => by cases hs⟩
    · rw [if_neg h2]
      refine ⟨⟨fun he => ?_, fun h => absurd h h2⟩, fun s hs => ?_⟩
      · obtain ⟨e, he⟩ := he
        cases he
      · injection hs with h'
        subst h'
        exact ⟨rfl, h2⟩

/-- Witness for C8: a padded text is stored stripped, and a whitespace-only
text is characterized as rejected. -/
theorem query_text_validation_spec_witness :
    mkQueryText "  hi  " = Except.ok "hi" ∧
    ((∃ e, mkQueryText "   " = Except.error e) ↔ pystrip "   " = "") :=
  ⟨rfl, (query_text_validation_spec "   ").1⟩

/-- Claim C9: for every response whose text parses as JSON,
`RoutingResult.from_response` returns the result whose identity fields come
from the response, whose data is the parsed text, and whose metadata holds
exactly the response's cost, latency and tokens together with the decision's
confidence and reasoning. -/
theorem from_response_spec (D : Type) (parseJson : String → Option D)
    (response : Response) (routing : RoutingDecision) (d : D)
    (h : parseJson response.text = some d) :
    ∃ res, RoutingResult.from_response parseJson response routing = some res ∧
      res.id = response.id ∧ res.query_id = response.query_id ∧
      res.model = response.model ∧ res.data = d ∧
      res.metadata =
        [("cost", MetaValue.ofRat response.cost),
         ("latency", MetaValue.ofRat response.latency),
         ("tokens", MetaValue.ofNat response.tokens),
         ("routing_confidence", MetaValue.ofRat routing.confidence),
         ("reasoning", MetaValue.ofStr routing.reasoning)] := by
  unfold RoutingResult.from_response
  rw [h]
  exact ⟨_, rfl, rfl, rfl, rfl, rfl, rfl⟩

/-- Witness for C9: a concrete response whose text parses (under the identity
parser) maps onto the concrete result. -/
theorem from_response_spec_witness :
    ∃ res, RoutingResult.from_response (fun s => some s) sampleResponse
        sampleDecision = some res ∧
      res.id = sampleResponse.id ∧ res.query_id = sampleResponse.query_id ∧
      res.model = sampleResponse.model ∧ res.data = "ok" ∧
      res.metadata =
        [("cost", MetaValue.ofRat sampleResponse.cost),
         ("latency", MetaValue.ofRat sampleResponse.latency),
         ("tokens", MetaValue.ofNat sampleResponse.tokens),
         ("routing_confidence", MetaValue.ofRat sampleDecision.confidence),
         ("reasoning", MetaValue.ofStr sampleDecision.reasoning)] :=
  from_response_spec String (fun s => some s) sampleResponse sampleDecision
    "ok" rfl

/-- Claim C10: each public `Database` operation invoked before `connect()` has
created the pool returns `DatabaseError` with message "Database not
connected" and executes no SQL statement. -/
theorem database_ops_require_connection (cs : String) (ok1 ok2 ok3 : Bool)
    (q : Query) (routing : RoutingDecision) (response : Response)
    (fb : Option Feedback) (s : ModelState) (rid : String) :
    Database.save_query ⟨cs, none⟩ ok1 q =
      (⟨cs, none⟩, [],
       Except.error (ConduitError.databaseError "Database not connected")) ∧
    Database.save_complete_interaction ⟨cs, none⟩ ok1 ok2 ok3 routing
        response fb =
      (⟨cs, none⟩, [],
       Except.error (ConduitError.databaseError "Database not connected")) ∧
    Database.update_model_state ⟨cs, none⟩ ok1 s =
      (⟨cs, none⟩, [],
       Except.error (ConduitError.databaseError "Database not connected")) ∧
    Database.get_model_states ⟨cs, none⟩ =
      (⟨cs, none⟩, [],
       Except.error (ConduitError.databaseError "Database not connected")) ∧
    Database.get_response_by_id ⟨cs, none⟩ rid =
      (⟨cs, none⟩, [],
       Except.error (ConduitError.databaseError "Database not connected")) :=
  ⟨rfl, rfl, rfl, rfl, rfl⟩

end Conduit
